import Mathlib

/-!
Verification of the process-execution coordinator of the node-spawn package
(src/index.ts). The coordinator is the default-exported function spawn:
it starts a child process, wires listeners for stdout data, stderr data,
an optional AbortSignal, the close event and the error event, and settles
a single promise.

Shallow embedding:
  - a RunOptions record keeps which optional configuration fields were
    supplied at call time (the user handlers are opaque caller code, so for
    each stream we track whether a handler was supplied and record the
    chunks delivered to it; what a handler does with a chunk is external);
  - one invocation's mutable environment (the two accumulator strings
    stdoutData and stderrData, the chunks delivered to each user handler,
    the signals sent via child.kill, the registration state of each of the
    five listeners, a flag recording whether nodeSpawn was ever called,
    and the promise's settlement) is a ChildState record;
  - the asynchronous deliveries of the platform (stdout data chunks,
    stderr data chunks, the abort event of the AbortSignal, the close
    event with its code and signal pair, the error event) form a trace,
    a list of ChildEvent processed one at a time, mirroring the
    single-threaded event loop;
  - the JS promise's first-settlement-wins rule is the settle function:
    a resolve or reject call takes effect only while settled is none;
  - chunks are modelled as the text they decode to (chunk.toString());
  - exit codes are Option Int (null is none) and signals Option String.
-/

namespace NodeSpawn

/-- Which of the three optional configuration fields of RunOptions were
supplied at call time, and whether the supplied AbortSignal was already
in the aborted state when spawn was invoked (signal.aborted). -/
structure RunOptions where
  onStdOut : Bool
  onStdErr : Bool
  signal : Bool
  signalAborted : Bool
deriving DecidableEq

/-- The cause object attached to a rejection error. The code builds it as
an object literal; the stdout and stderr fields model whether the literal
carries those properties (none = property absent from the object). -/
structure Cause where
  code : Option Int
  signal : Option String
  stdout : Option String
  stderr : Option String
deriving DecidableEq

/-- The result object a successful invocation resolves with: code, signal,
and, by object spread on handler absence, conditionally the accumulated
stdout and stderr strings (none = property absent from the object). -/
structure RunResult where
  code : Option Int
  signal : Option String
  stdout : Option String
  stderr : Option String
deriving DecidableEq

/-- The value a rejection carries: either an Error constructed by the
coordinator with a message and a structured cause, or the raw underlying
error object forwarded unchanged (spawn-level failure). -/
inductive ErrValue where
  | errorWithCause : String → Cause → ErrValue
  | rawError : String → ErrValue
deriving DecidableEq

/-- A settlement of the returned promise. -/
inductive Settlement where
  | resolved : RunResult → Settlement
  | rejected : ErrValue → Settlement
deriving DecidableEq

/-- The mutable environment of one invocation of spawn. -/
structure ChildState where
  stdoutData : String
  stderrData : String
  stdoutCalls : List String
  stderrCalls : List String
  kills : List String
  childSpawned : Bool
  stdoutListener : Bool
  stderrListener : Bool
  abortListener : Bool
  closeListener : Bool
  errorListener : Bool
  settled : Option Settlement
deriving DecidableEq

/-- An asynchronous delivery of the platform to one invocation. -/
inductive ChildEvent where
  | stdoutChunk : String → ChildEvent
  | stderrChunk : String → ChildEvent
  | abortFired : ChildEvent
  | closed : Option Int → Option String → ChildEvent
  | errored : String → ChildEvent
deriving DecidableEq

/-- JS promise semantics: the first resolve or reject wins, every later
settlement attempt is a no-op. -/
def settle (s : ChildState) (v : Settlement) : ChildState :=
  match s.settled with
  | some _ => s
  | none => { s with settled := some v }

/-- The state right after nodeSpawn returned and the listeners of lines
196-197, 209-211 and 247-248 were attached (the abort listener only when
a signal was supplied). -/
def initState (opts : RunOptions) : ChildState :=
  { stdoutData := ""
    stderrData := ""
    stdoutCalls := []
    stderrCalls := []
    kills := []
    childSpawned := true
    stdoutListener := true
    stderrListener := true
    abortListener := opts.signal
    closeListener := true
    errorListener := true
    settled := none }

/-- The stdout data listener: with a user handler, call it on the chunk
(recorded in stdoutCalls); without one, append the decoded chunk to the
stdoutData accumulator. -/
def stdoutHandler (opts : RunOptions) (s : ChildState) (chunk : String) : ChildState :=
  if opts.onStdOut then { s with stdoutCalls := s.stdoutCalls ++ [chunk] }
  else { s with stdoutData := s.stdoutData ++ chunk }

/-- The stderr data listener, symmetric to stdoutHandler. -/
def stderrHandler (opts : RunOptions) (s : ChildState) (chunk : String) : ChildState :=
  if opts.onStdErr then { s with stderrCalls := s.stderrCalls ++ [chunk] }
  else { s with stderrData := s.stderrData ++ chunk }

/-- The abort listener of the AbortSignal: child.kill with SIGTERM, then
reject with the cancellation error whose cause is the literal
code null, signal SIGABRT. Note: it does not run the cleanup routine. -/
def abortHandler (s : ChildState) : ChildState :=
  settle { s with kills := s.kills ++ ["SIGTERM"] }
    (Settlement.rejected (ErrValue.errorWithCause "Operation was aborted"
      { code := none, signal := some "SIGABRT", stdout := none, stderr := none }))

/-- The teardown routine: detach the stdout data listener, the stderr data
listener, the abort listener when a signal was registered (removing an
unregistered listener is a no-op, so unconditionally clearing the flag is
equivalent), and the close and error listeners. -/
def cleanup (s : ChildState) : ChildState :=
  { s with stdoutListener := false
           stderrListener := false
           abortListener := false
           closeListener := false
           errorListener := false }

/-- String interpolation of a JS number-or-null value, as in the template
literals of the close handler (null prints as the text null). -/
def codeOptToString : Option Int → String
  | none => "null"
  | some n => toString n

/-- The message of the abnormal-close rejection: by-signal when a signal
is present, by-code otherwise. -/
def closeMessage (code : Option Int) (sig : Option String) : String :=
  match sig with
  | some sg => "Process killed with signal: " ++ sg
  | none => "Process exited with code: " ++ codeOptToString code

/-- The result object built by the close handler: code, signal, and the
accumulated stdout and stderr included by spread exactly when the
corresponding user handler was not supplied. -/
def closeResult (opts : RunOptions) (s : ChildState) (code : Option Int)
    (sig : Option String) : RunResult :=
  { code := code
    signal := sig
    stdout := if opts.onStdOut then none else some s.stdoutData
    stderr := if opts.onStdErr then none else some s.stderrData }

/-- The close listener: run cleanup, build the result object, then resolve
it when code is 0 and signal is null, otherwise reject an Error whose
message is closeMessage and whose cause is the fresh literal carrying only
code and signal. -/
def onClose (opts : RunOptions) (code : Option Int) (sig : Option String)
    (s : ChildState) : ChildState :=
  let s := cleanup s
  let result := closeResult opts s code sig
  if code = some 0 ∧ sig = none then
    settle s (Settlement.resolved result)
  else
    settle s (Settlement.rejected (ErrValue.errorWithCause (closeMessage code sig)
      { code := code, signal := sig, stdout := none, stderr := none }))

/-- The error listener: run cleanup, then reject with the raw underlying
error, unwrapped. -/
def onError (err : String) (s : ChildState) : ChildState :=
  settle (cleanup s) (Settlement.rejected (ErrValue.rawError err))

/-- Process one platform delivery: each listener runs only while its
registration flag is set; close and error are once-listeners, removed as
they fire. -/
def stepEvent (opts : RunOptions) (s : ChildState) : ChildEvent → ChildState
  | ChildEvent.stdoutChunk c =>
    if s.stdoutListener then stdoutHandler opts s c else s
  | ChildEvent.stderrChunk c =>
    if s.stderrListener then stderrHandler opts s c else s
  | ChildEvent.abortFired =>
    if s.abortListener then abortHandler s else s
  | ChildEvent.closed code sig =>
    if s.closeListener then onClose opts code sig { s with closeListener := false } else s
  | ChildEvent.errored e =>
    if s.errorListener then onError e { s with errorListener := false } else s

/-- Process a trace of platform deliveries in order (the single-threaded
event loop runs one callback at a time). -/
def runEvents (opts : RunOptions) (s : ChildState) : List ChildEvent → ChildState
  | [] => s
  | e :: es => runEvents opts (stepEvent opts s e) es

/-- The state of the pre-flight already-aborted path: nodeSpawn is never
called, no listener is ever attached, and the promise is rejected at once
with the cancellation error. -/
def preflightState : ChildState :=
  { stdoutData := ""
    stderrData := ""
    stdoutCalls := []
    stderrCalls := []
    kills := []
    childSpawned := false
    stdoutListener := false
    stderrListener := false
    abortListener := false
    closeListener := false
    errorListener := false
    settled := some (Settlement.rejected (ErrValue.errorWithCause "Operation was aborted"
      { code := none, signal := some "SIGABRT", stdout := none, stderr := none })) }

/-- The state reached when the nodeSpawn call itself throws synchronously
inside the promise executor: the Promise constructor catches the throw and
rejects the promise with the thrown error; no listener was attached. -/
def thrownState (err : String) : ChildState :=
  { stdoutData := ""
    stderrData := ""
    stdoutCalls := []
    stderrCalls := []
    kills := []
    childSpawned := false
    stdoutListener := false
    stderrListener := false
    abortListener := false
    closeListener := false
    errorListener := false
    settled := some (Settlement.rejected (ErrValue.rawError err)) }

/-- How the OS process-creation call behaves in one invocation: either it
throws synchronously, or it returns a child handle whose subsequent
asynchronous deliveries are the given trace (a spawn-level failure such as
a missing executable is an errored event in the trace). -/
inductive SpawnBehavior where
  | throws : String → SpawnBehavior
  | child : List ChildEvent → SpawnBehavior
deriving DecidableEq

/-- What a call of spawn can do as seen by the caller: return the promise
(with the final state of the invocation) or throw synchronously. The
thrown constructor exists so that never-throwing is expressible; the
definition of spawn below never builds it. -/
inductive SpawnReturn where
  | returned : ChildState → SpawnReturn
  | thrown : String → SpawnReturn
deriving DecidableEq

/-- The coordinator itself. The executor first checks signal?.aborted
(false when no signal was supplied) and rejects without starting the
process; otherwise it calls nodeSpawn, attaches the listeners and lets
the event loop deliver the trace. A synchronous throw of nodeSpawn is
caught by the Promise constructor and becomes a rejection; spawn never
throws to its caller. -/
def spawn (opts : RunOptions) (beh : SpawnBehavior) : SpawnReturn :=
  if opts.signal && opts.signalAborted then
    SpawnReturn.returned preflightState
  else
    match beh with
    | SpawnBehavior.throws err => SpawnReturn.returned (thrownState err)
    | SpawnBehavior.child events =>
      SpawnReturn.returned (runEvents opts (initState opts) events)

/-- All five listener registration flags are clear. -/
def allDetached (s : ChildState) : Bool :=
  !s.stdoutListener && !s.stderrListener && !s.abortListener
    && !s.closeListener && !s.errorListener

/-- Deliveries that force a settlement: a close event, an error event, and
the abort event when a cancellation signal was supplied. -/
def isTerminalEvent (opts : RunOptions) : ChildEvent → Bool
  | ChildEvent.closed _ _ => true
  | ChildEvent.errored _ => true
  | ChildEvent.abortFired => opts.signal
  | _ => false

/-- A whole invocation reaches a settlement: pre-flight abort, synchronous
throw of the primitive, or a trace holding a terminal delivery. -/
def terminalReached (opts : RunOptions) : SpawnBehavior → Bool
  | SpawnBehavior.throws _ => true
  | SpawnBehavior.child events =>
    (opts.signal && opts.signalAborted) || events.any (isTerminalEvent opts)

/-- The concatenation, in delivery order, of the stdout chunks of a trace. -/
def stdoutOf : List ChildEvent → String
  | [] => ""
  | ChildEvent.stdoutChunk c :: es => c ++ stdoutOf es
  | _ :: es => stdoutOf es

/-- The concatenation, in delivery order, of the stderr chunks of a trace. -/
def stderrOf : List ChildEvent → String
  | [] => ""
  | ChildEvent.stderrChunk c :: es => c ++ stderrOf es
  | _ :: es => stderrOf es

/-- Stream data deliveries, the non-terminal events. -/
def isDataEvent : ChildEvent → Bool
  | ChildEvent.stdoutChunk _ => true
  | ChildEvent.stderrChunk _ => true
  | _ => false

/-- Options of the fully accumulating variant: no handlers, no signal. -/
def optsAccum : RunOptions := ⟨false, false, false, false⟩

/-- Options with a cancellation signal that is not yet aborted. -/
def optsSignal : RunOptions := ⟨false, false, true, false⟩

/-- Options with a cancellation signal already aborted at call time. -/
def optsPreAborted : RunOptions := ⟨false, false, true, true⟩

/-- A settle call always leaves the promise settled. -/
theorem settle_settled_isSome (s : ChildState) (v : Settlement) :
    ((settle s v).settled).isSome = true := by
  cases h : s.settled <;> simp [settle, h]

/-- A settle call on an already settled promise is a no-op. -/
theorem settle_of_settled {s : ChildState} {x : Settlement} (h : s.settled = some x)
    (v : Settlement) : settle s v = s := by
  simp [settle, h]

/-- The close handler always leaves the promise settled. -/
theorem onClose_settled_isSome (opts : RunOptions) (code : Option Int)
    (sig : Option String) (s : ChildState) :
    ((onClose opts code sig s).settled).isSome = true := by
  unfold onClose
  split
  · exact settle_settled_isSome _ _
  · exact settle_settled_isSome _ _

/-- The error handler always leaves the promise settled. -/
theorem onError_settled_isSome (err : String) (s : ChildState) :
    ((onError err s).settled).isSome = true :=
  settle_settled_isSome _ _

/-- The abort handler always leaves the promise settled. -/
theorem abortHandler_settled_isSome (s : ChildState) :
    ((abortHandler s).settled).isSome = true :=
  settle_settled_isSome _ _

/-- An existing settlement survives any further event: later resolve and
reject calls are no-ops of the promise. -/
theorem stepEvent_settled_mono {opts : RunOptions} {s : ChildState} {x : Settlement}
    (h : s.settled = some x) (e : ChildEvent) :
    (stepEvent opts s e).settled = some x := by
  have hs : ∀ t : ChildState, t.settled = some x → ∀ v, (settle t v).settled = some x := by
    intro t ht v
    simp [settle, ht]
  cases e with
  | stdoutChunk c =>
      simp only [stepEvent, stdoutHandler]
      split
      · split <;> exact h
      · exact h
  | stderrChunk c =>
      simp only [stepEvent, stderrHandler]
      split
      · split <;> exact h
      · exact h
  | abortFired =>
      simp only [stepEvent, abortHandler]
      split
      · refine hs _ ?_ _
        exact h
      · exact h
  | closed code sig =>
      simp only [stepEvent, onClose]
      split
      · split <;> (refine hs _ ?_ _; exact h)
      · exact h
  | errored err =>
      simp only [stepEvent, onError]
      split
      · refine hs _ ?_ _
        exact h
      · exact h

/-- An existing settlement survives any further trace. -/
theorem runEvents_settled_mono {opts : RunOptions} {s : ChildState} {x : Settlement}
    (h : s.settled = some x) (es : List ChildEvent) :
    (runEvents opts s es).settled = some x := by
  induction es generalizing s with
  | nil => simpa [runEvents] using h
  | cons e es ih => simpa [runEvents] using ih (stepEvent_settled_mono h e)

/-- The settlement invariant: a missing close or error listener, or a
missing abort listener while a signal was supplied, means the teardown ran
and hence the promise is already settled. -/
def SettleInv (opts : RunOptions) (s : ChildState) : Prop :=
  (s.closeListener = false → (s.settled).isSome = true)
  ∧ (s.errorListener = false → (s.settled).isSome = true)
  ∧ (opts.signal = true → (s.abortListener = true ∨ (s.settled).isSome = true))

/-- A settled state satisfies the settlement invariant outright. -/
theorem inv_of_isSome {opts : RunOptions} {s : ChildState}
    (h : (s.settled).isSome = true) : SettleInv opts s :=
  ⟨fun _ => h, fun _ => h, fun _ => Or.inr h⟩

/-- The freshly wired state satisfies the settlement invariant. -/
theorem initState_inv (opts : RunOptions) : SettleInv opts (initState opts) := by
  refine ⟨?_, ?_, ?_⟩ <;> simp [initState]

/-- Every event preserves the settlement invariant. -/
theorem stepEvent_inv {opts : RunOptions} {s : ChildState} (h : SettleInv opts s)
    (e : ChildEvent) : SettleInv opts (stepEvent opts s e) := by
  obtain ⟨h1, h2, h3⟩ := h
  cases e with
  | stdoutChunk c =>
      simp only [stepEvent, stdoutHandler]
      split
      · split
        · exact ⟨h1, h2, h3⟩
        · exact ⟨h1, h2, h3⟩
      · exact ⟨h1, h2, h3⟩
  | stderrChunk c =>
      simp only [stepEvent, stderrHandler]
      split
      · split
        · exact ⟨h1, h2, h3⟩
        · exact ⟨h1, h2, h3⟩
      · exact ⟨h1, h2, h3⟩
  | abortFired =>
      simp only [stepEvent]
      split
      · exact inv_of_isSome (abortHandler_settled_isSome _)
      · exact ⟨h1, h2, h3⟩
  | closed code sig =>
      simp only [stepEvent]
      split
      · exact inv_of_isSome (onClose_settled_isSome _ _ _ _)
      · exact ⟨h1, h2, h3⟩
  | errored e =>
      simp only [stepEvent]
      split
      · exact inv_of_isSome (onError_settled_isSome _ _)
      · exact ⟨h1, h2, h3⟩

/-- Under the settlement invariant, a terminal event leaves the promise
settled: either its listener is still attached and the handler settles,
or the listener is gone and the promise was settled already. -/
theorem stepEvent_terminal {opts : RunOptions} {s : ChildState} (h : SettleInv opts s)
    {e : ChildEvent} (ht : isTerminalEvent opts e = true) :
    ((stepEvent opts s e).settled).isSome = true := by
  obtain ⟨h1, h2, h3⟩ := h
  cases e with
  | stdoutChunk c => simp [isTerminalEvent] at ht
  | stderrChunk c => simp [isTerminalEvent] at ht
  | abortFired =>
      simp only [stepEvent]
      split
      · exact abortHandler_settled_isSome _
      · rename_i hl
        rcases h3 (by simpa [isTerminalEvent] using ht) with hl' | hs
        · exact absurd hl' hl
        · exact hs
  | closed code sig =>
      simp only [stepEvent]
      split
      · exact onClose_settled_isSome _ _ _ _
      · rename_i hl
        exact h1 (by simpa using hl)
  | errored e =>
      simp only [stepEvent]
      split
      · exact onError_settled_isSome _ _
      · rename_i hl
        exact h2 (by simpa using hl)

/-- Every trace preserves the settlement invariant. -/
theorem runEvents_inv {opts : RunOptions} {s : ChildState} (h : SettleInv opts s)
    (es : List ChildEvent) : SettleInv opts (runEvents opts s es) := by
  induction es generalizing s with
  | nil => simpa [runEvents] using h
  | cons e es ih => simpa [runEvents] using ih (stepEvent_inv h e)

/-- Under the settlement invariant, a trace holding a terminal event ends
with the promise settled. -/
theorem runEvents_terminal {opts : RunOptions} {es : List ChildEvent} :
    ∀ {s : ChildState}, SettleInv opts s → es.any (isTerminalEvent opts) = true →
      ((runEvents opts s es).settled).isSome = true := by
  induction es with
  | nil => intro s _ ht; simp at ht
  | cons e es ih =>
      intro s h ht
      rw [List.any_cons, Bool.or_eq_true] at ht
      by_cases hte : isTerminalEvent opts e = true
      · obtain ⟨x, hx⟩ := Option.isSome_iff_exists.mp (stepEvent_terminal h hte)
        simpa [runEvents] using
          Option.isSome_iff_exists.mpr ⟨x, runEvents_settled_mono hx es⟩
      · have hrest : es.any (isTerminalEvent opts) = true := by
          rcases ht with ht | ht
          · exact absurd ht hte
          · exact ht
        simpa [runEvents] using ih (stepEvent_inv h e) hrest

/-- Running a concatenated trace is running the pieces in order. -/
theorem runEvents_append (opts : RunOptions) (s : ChildState)
    (t₁ t₂ : List ChildEvent) :
    runEvents opts s (t₁ ++ t₂) = runEvents opts (runEvents opts s t₁) t₂ := by
  induction t₁ generalizing s with
  | nil => simp [runEvents]
  | cons e es ih => simp [runEvents, ih]

/-- A close event with code 0 and no signal, received while unsettled and
listening, resolves with the result built from the accumulators, the
output fields included exactly when the matching handler is absent. -/
theorem stepEvent_closed_success (opts : RunOptions) (s : ChildState)
    (hset : s.settled = none) (hcl : s.closeListener = true) :
    (stepEvent opts s (ChildEvent.closed (some 0) none)).settled
      = some (Settlement.resolved
          { code := some 0
            signal := none
            stdout := if opts.onStdOut then none else some s.stdoutData
            stderr := if opts.onStdErr then none else some s.stderrData }) := by
  simp [stepEvent, hcl, onClose, cleanup, settle, hset, closeResult]

/-- A close event with any other code and signal pair, received while
unsettled and listening, rejects with the closeMessage error whose cause
object holds only the code and signal fields. -/
theorem stepEvent_closed_failure (opts : RunOptions) (s : ChildState)
    (code : Option Int) (sig : Option String)
    (hset : s.settled = none) (hcl : s.closeListener = true)
    (habn : ¬(code = some 0 ∧ sig = none)) :
    (stepEvent opts s (ChildEvent.closed code sig)).settled
      = some (Settlement.rejected (ErrValue.errorWithCause (closeMessage code sig)
          { code := code, signal := sig, stdout := none, stderr := none })) := by
  simp [stepEvent, hcl, onClose, cleanup, settle, hset, habn]

/-- Claim C5 (confirmed): an invocation whose cancellation signal is
already aborted at call time rejects at once with the cancellation error
of cause code null and signal SIGABRT, never calls the process-creation
primitive, and attaches no listener at all. -/
theorem preflight_aborted_rejects_without_spawning (opts : RunOptions)
    (beh : SpawnBehavior) (hsig : opts.signal = true)
    (hab : opts.signalAborted = true) :
    spawn opts beh = SpawnReturn.returned preflightState
    ∧ preflightState.childSpawned = false
    ∧ allDetached preflightState = true
    ∧ preflightState.settled = some (Settlement.rejected (ErrValue.errorWithCause
        "Operation was aborted"
        { code := none, signal := some "SIGABRT", stdout := none, stderr := none })) := by
  refine ⟨?_, by decide, by decide, by decide⟩
  simp [spawn, hsig, hab]

/-- Witness: the pre-flight check at the concrete pre-aborted options. -/
theorem preflight_aborted_rejects_without_spawning_witness :
    optsPreAborted.signal = true ∧ optsPreAborted.signalAborted = true
    ∧ (spawn optsPreAborted (SpawnBehavior.child [ChildEvent.closed (some 0) none])
        = SpawnReturn.returned preflightState
      ∧ preflightState.childSpawned = false
      ∧ allDetached preflightState = true
      ∧ preflightState.settled = some (Settlement.rejected (ErrValue.errorWithCause
          "Operation was aborted"
          { code := none, signal := some "SIGABRT", stdout := none, stderr := none }))) :=
  ⟨by decide, by decide,
    preflight_aborted_rejects_without_spawning optsPreAborted
      (SpawnBehavior.child [ChildEvent.closed (some 0) none]) (by decide) (by decide)⟩

/-- Claim C8 (confirmed): when the abort event of the cancellation signal
fires while the invocation is still unsettled, the handler first sends
SIGTERM to the child, then the promise rejects at that very step with the
cancellation error of cause code null, signal SIGABRT; no close event of
the process is involved in this settlement. -/
theorem inflight_abort_sigterm_then_reject (opts : RunOptions) (s : ChildState)
    (hab : s.abortListener = true) (hset : s.settled = none) :
    (stepEvent opts s ChildEvent.abortFired).kills = s.kills ++ ["SIGTERM"]
    ∧ (stepEvent opts s ChildEvent.abortFired).settled
      = some (Settlement.rejected (ErrValue.errorWithCause "Operation was aborted"
          { code := none, signal := some "SIGABRT", stdout := none, stderr := none })) := by
  constructor
  · simp [stepEvent, hab, abortHandler, settle, hset]
  · simp [stepEvent, hab, abortHandler, settle, hset]

/-- Witness: the in-flight abort at the freshly wired signal options. -/
theorem inflight_abort_sigterm_then_reject_witness :
    (initState optsSignal).abortListener = true
    ∧ (initState optsSignal).settled = none
    ∧ ((stepEvent optsSignal (initState optsSignal) ChildEvent.abortFired).kills
        = (initState optsSignal).kills ++ ["SIGTERM"]
      ∧ (stepEvent optsSignal (initState optsSignal) ChildEvent.abortFired).settled
        = some (Settlement.rejected (ErrValue.errorWithCause "Operation was aborted"
            { code := none, signal := some "SIGABRT", stdout := none, stderr := none }))) :=
  ⟨by decide, by decide,
    inflight_abort_sigterm_then_reject optsSignal (initState optsSignal)
      (by decide) (by decide)⟩

/-- Claim C9 (confirmed): a spawn-level error event, received while
unsettled and listening, first runs the teardown of every listener and
then rejects with the raw underlying error, with no coordinator-made
cause wrapping. -/
theorem spawn_error_rejects_raw_error_after_teardown (opts : RunOptions)
    (s : ChildState) (err : String) (herr : s.errorListener = true)
    (hset : s.settled = none) :
    (stepEvent opts s (ChildEvent.errored err)).settled
      = some (Settlement.rejected (ErrValue.rawError err))
    ∧ allDetached (stepEvent opts s (ChildEvent.errored err)) = true := by
  constructor
  · simp [stepEvent, herr, onError, cleanup, settle, hset]
  · simp [stepEvent, herr, onError, cleanup, settle, hset, allDetached]

/-- Witness: the missing-executable error at the accumulating options. -/
theorem spawn_error_rejects_raw_error_after_teardown_witness :
    (initState optsAccum).errorListener = true
    ∧ (initState optsAccum).settled = none
    ∧ ((stepEvent optsAccum (initState optsAccum) (ChildEvent.errored "ENOENT")).settled
        = some (Settlement.rejected (ErrValue.rawError "ENOENT"))
      ∧ allDetached (stepEvent optsAccum (initState optsAccum)
          (ChildEvent.errored "ENOENT")) = true) :=
  ⟨by decide, by decide,
    spawn_error_rejects_raw_error_after_teardown optsAccum (initState optsAccum)
      "ENOENT" (by decide) (by decide)⟩

/-- Claim C10 (confirmed): spawn never throws synchronously: for every
option record and every behaviour of the process-creation primitive,
including a primitive that itself throws, the call returns a promise, and
on the synchronous-throw path that promise is settled (rejected) rather
than the throw escaping to the caller. -/
theorem spawn_never_throws_synchronously :
    ∀ (opts : RunOptions) (beh : SpawnBehavior),
      (∃ st, spawn opts beh = SpawnReturn.returned st)
      ∧ ∀ err, ∃ st, spawn opts (SpawnBehavior.throws err) = SpawnReturn.returned st
          ∧ (st.settled).isSome = true := by
  intro opts beh
  constructor
  · unfold spawn
    split
    · exact ⟨_, rfl⟩
    · cases beh
      · exact ⟨_, rfl⟩
      · exact ⟨_, rfl⟩
  · intro err
    unfold spawn
    split
    · exact ⟨preflightState, rfl, by decide⟩
    · exact ⟨thrownState err, rfl, rfl⟩

/-- Claim C1 counterexample: in accumulating mode (no handlers) a process
that buffered the chunk outdata and then exited with code 1 rejects with a
cause holding only code and signal — its stdout and stderr fields are
absent, although a resolved result built at the same point would have
carried stdout outdata. The buffered output is dropped from the rejection. -/
theorem abnormalClose_cause_drops_buffered_output_cex :
    (runEvents optsAccum (initState optsAccum)
        [ChildEvent.stdoutChunk "outdata", ChildEvent.stderrChunk "errdata",
          ChildEvent.closed (some 1) none]).settled
      = some (Settlement.rejected (ErrValue.errorWithCause "Process exited with code: 1"
          { code := some 1, signal := none, stdout := none, stderr := none }))
    ∧ (closeResult optsAccum
        (runEvents optsAccum (initState optsAccum)
          [ChildEvent.stdoutChunk "outdata", ChildEvent.stderrChunk "errdata"])
        (some 1) none).stdout = some "outdata"
    ∧ (closeResult optsAccum
        (runEvents optsAccum (initState optsAccum)
          [ChildEvent.stdoutChunk "outdata", ChildEvent.stderrChunk "errdata"])
        (some 1) none).stderr = some "errdata" := by
  refine ⟨by decide, by decide, by decide⟩

/-- Claim C1 (corrected): on an abnormal close the rejection's cause
carries exactly the code and signal pair; the accumulated output is not
part of the cause, in line with the repository's README and tests, which
state that collected output is lost when the command fails. -/
theorem abnormalClose_cause_carries_only_code_and_signal (opts : RunOptions)
    (s : ChildState) (code : Option Int) (sig : Option String)
    (hset : s.settled = none) (hcl : s.closeListener = true)
    (habn : ¬(code = some 0 ∧ sig = none)) :
    (stepEvent opts s (ChildEvent.closed code sig)).settled
      = some (Settlement.rejected (ErrValue.errorWithCause (closeMessage code sig)
          { code := code, signal := sig, stdout := none, stderr := none })) :=
  stepEvent_closed_failure opts s code sig hset hcl habn

/-- Witness: the bare-cause rejection at exit code 1 in accumulating mode. -/
theorem abnormalClose_cause_carries_only_code_and_signal_witness :
    (initState optsAccum).settled = none
    ∧ (initState optsAccum).closeListener = true
    ∧ ¬(some (1 : Int) = some 0 ∧ (none : Option String) = none)
    ∧ (stepEvent optsAccum (initState optsAccum)
          (ChildEvent.closed (some 1) none)).settled
      = some (Settlement.rejected (ErrValue.errorWithCause (closeMessage (some 1) none)
          { code := some 1, signal := none, stdout := none, stderr := none })) :=
  ⟨by decide, by decide, by decide,
    abnormalClose_cause_carries_only_code_and_signal optsAccum (initState optsAccum)
      (some 1) none (by decide) (by decide) (by decide)⟩

/-- Claim C2 counterexample: when the cancellation signal fires in flight,
the promise settles while every listener is still attached (the abort
handler never calls the teardown routine), and a stdout chunk delivered
after that settlement still reaches the accumulator. -/
theorem inflight_abort_settles_with_listeners_attached_cex :
    ((runEvents optsSignal (initState optsSignal)
        [ChildEvent.abortFired]).settled).isSome = true
    ∧ (runEvents optsSignal (initState optsSignal)
        [ChildEvent.abortFired]).stdoutListener = true
    ∧ (runEvents optsSignal (initState optsSignal)
        [ChildEvent.abortFired]).closeListener = true
    ∧ allDetached (runEvents optsSignal (initState optsSignal)
        [ChildEvent.abortFired]) = false
    ∧ (runEvents optsSignal (initState optsSignal)
        [ChildEvent.abortFired, ChildEvent.stdoutChunk "late"]).stdoutData = "late" := by
  refine ⟨by decide, by decide, by decide, by decide, by decide⟩

/-- Claim C2 (corrected): listener teardown precedes settlement on the
close path, the error path and (trivially, nothing was attached) the
pre-flight path; on the in-flight cancellation path the promise settles
with every listener left exactly as it was, the teardown running only
when the close or error event later fires. -/
theorem teardown_before_settlement_except_inflight_abort (opts : RunOptions)
    (s : ChildState) (code : Option Int) (sig : Option String) (err : String)
    (hcl : s.closeListener = true) (herr : s.errorListener = true)
    (hab : s.abortListener = true) (hset : s.settled = none) :
    allDetached (stepEvent opts s (ChildEvent.closed code sig)) = true
    ∧ allDetached (stepEvent opts s (ChildEvent.errored err)) = true
    ∧ allDetached preflightState = true
    ∧ ((stepEvent opts s ChildEvent.abortFired).settled).isSome = true
    ∧ (stepEvent opts s ChildEvent.abortFired).stdoutListener = s.stdoutListener
    ∧ (stepEvent opts s ChildEvent.abortFired).stderrListener = s.stderrListener
    ∧ (stepEvent opts s ChildEvent.abortFired).abortListener = s.abortListener
    ∧ (stepEvent opts s ChildEvent.abortFired).closeListener = s.closeListener
    ∧ (stepEvent opts s ChildEvent.abortFired).errorListener = s.errorListener := by
  refine ⟨?_, ?_, by decide, ?_, ?_, ?_, ?_, ?_, ?_⟩
  · have h1 : stepEvent opts s (ChildEvent.closed code sig)
        = onClose opts code sig { s with closeListener := false } := by
      simp [stepEvent, hcl]
    rw [h1]
    unfold onClose
    split <;> simp [cleanup, settle, hset, allDetached]
  · simp [stepEvent, herr, onError, cleanup, settle, hset, allDetached]
  · simp [stepEvent, hab, abortHandler, settle, hset]
  · simp [stepEvent, hab, abortHandler, settle, hset]
  · simp [stepEvent, hab, abortHandler, settle, hset]
  · simp [stepEvent, hab, abortHandler, settle, hset]
  · simp [stepEvent, hab, abortHandler, settle, hset]
  · simp [stepEvent, hab, abortHandler, settle, hset]

/-- Witness: the teardown facts at the freshly wired signal options. -/
theorem teardown_before_settlement_except_inflight_abort_witness :
    (initState optsSignal).closeListener = true
    ∧ (initState optsSignal).errorListener = true
    ∧ (initState optsSignal).abortListener = true
    ∧ (initState optsSignal).settled = none
    ∧ (allDetached (stepEvent optsSignal (initState optsSignal)
          (ChildEvent.closed (some 0) none)) = true
      ∧ allDetached (stepEvent optsSignal (initState optsSignal)
          (ChildEvent.errored "E")) = true
      ∧ allDetached preflightState = true
      ∧ ((stepEvent optsSignal (initState optsSignal) ChildEvent.abortFired).settled).isSome
          = true
      ∧ (stepEvent optsSignal (initState optsSignal) ChildEvent.abortFired).stdoutListener
          = (initState optsSignal).stdoutListener
      ∧ (stepEvent optsSignal (initState optsSignal) ChildEvent.abortFired).stderrListener
          = (initState optsSignal).stderrListener
      ∧ (stepEvent optsSignal (initState optsSignal) ChildEvent.abortFired).abortListener
          = (initState optsSignal).abortListener
      ∧ (stepEvent optsSignal (initState optsSignal) ChildEvent.abortFired).closeListener
          = (initState optsSignal).closeListener
      ∧ (stepEvent optsSignal (initState optsSignal) ChildEvent.abortFired).errorListener
          = (initState optsSignal).errorListener) :=
  ⟨by decide, by decide, by decide, by decide,
    teardown_before_settlement_except_inflight_abort optsSignal (initState optsSignal)
      (some 0) none "E" (by decide) (by decide) (by decide) (by decide)⟩

/-- Claim C4 counterexample: with no stderr handler supplied and the chunk
boom buffered, the failure payload of an exit with code 2 has no stderr
field (and no stdout field) in its cause — the failure payload's shape is
not the handler-absence-conditional shape of the success result. -/
theorem failure_payload_lacks_accumulated_fields_cex :
    (runEvents optsAccum (initState optsAccum)
        [ChildEvent.stderrChunk "boom", ChildEvent.closed (some 2) none]).settled
      = some (Settlement.rejected (ErrValue.errorWithCause "Process exited with code: 2"
          { code := some 2, signal := none, stdout := none, stderr := none }))
    ∧ optsAccum.onStdErr = false
    ∧ (runEvents optsAccum (initState optsAccum)
        [ChildEvent.stderrChunk "boom", ChildEvent.closed (some 2) none]).stderrData
      = "boom" := by
  refine ⟨by decide, by decide, by decide⟩

/-- Claim C4 (corrected): the success result contains the accumulated
stdout field exactly when no stdout handler was supplied and the stderr
field exactly when no stderr handler was supplied, and this presence is a
pure function of the options, independent of the runtime state; the
failure payload's cause, however, never contains the accumulated fields —
it always carries only code and signal. -/
theorem result_shape_is_structural (opts : RunOptions) (s t : ChildState)
    (code : Option Int) (sig : Option String)
    (hset : s.settled = none) (hcl : s.closeListener = true) :
    ((closeResult opts s code sig).stdout).isSome = !opts.onStdOut
    ∧ ((closeResult opts s code sig).stderr).isSome = !opts.onStdErr
    ∧ ((closeResult opts s code sig).stdout).isSome
        = ((closeResult opts t code sig).stdout).isSome
    ∧ ((closeResult opts s code sig).stderr).isSome
        = ((closeResult opts t code sig).stderr).isSome
    ∧ (code = some 0 ∧ sig = none →
        (stepEvent opts s (ChildEvent.closed code sig)).settled
          = some (Settlement.resolved (closeResult opts s code sig)))
    ∧ (¬(code = some 0 ∧ sig = none) →
        (stepEvent opts s (ChildEvent.closed code sig)).settled
          = some (Settlement.rejected (ErrValue.errorWithCause (closeMessage code sig)
              { code := code, signal := sig, stdout := none, stderr := none }))) := by
  refine ⟨?_, ?_, ?_, ?_, ?_, ?_⟩
  · cases hb : opts.onStdOut <;> simp [closeResult, hb]
  · cases hb : opts.onStdErr <;> simp [closeResult, hb]
  · cases hb : opts.onStdOut <;> simp [closeResult, hb]
  · cases hb : opts.onStdErr <;> simp [closeResult, hb]
  · rintro ⟨hc, hs⟩
    subst hc
    subst hs
    simpa [closeResult] using stepEvent_closed_success opts s hset hcl
  · intro habn
    exact stepEvent_closed_failure opts s code sig hset hcl habn

/-- Witness: the structural shape at the accumulating options and two
different runtime states. -/
theorem result_shape_is_structural_witness :
    (initState optsAccum).settled = none
    ∧ (initState optsAccum).closeListener = true
    ∧ (((closeResult optsAccum (initState optsAccum) (some 0) none).stdout).isSome
          = !optsAccum.onStdOut
      ∧ ((closeResult optsAccum (initState optsAccum) (some 0) none).stderr).isSome
          = !optsAccum.onStdErr
      ∧ ((closeResult optsAccum (initState optsAccum) (some 0) none).stdout).isSome
          = ((closeResult optsAccum preflightState (some 0) none).stdout).isSome
      ∧ ((closeResult optsAccum (initState optsAccum) (some 0) none).stderr).isSome
          = ((closeResult optsAccum preflightState (some 0) none).stderr).isSome
      ∧ (some (0 : Int) = some 0 ∧ (none : Option String) = none →
          (stepEvent optsAccum (initState optsAccum)
              (ChildEvent.closed (some 0) none)).settled
            = some (Settlement.resolved
                (closeResult optsAccum (initState optsAccum) (some 0) none)))
      ∧ (¬(some (0 : Int) = some 0 ∧ (none : Option String) = none) →
          (stepEvent optsAccum (initState optsAccum)
              (ChildEvent.closed (some 0) none)).settled
            = some (Settlement.rejected (ErrValue.errorWithCause
                (closeMessage (some 0) none)
                { code := some 0, signal := none, stdout := none, stderr := none })))) :=
  ⟨by decide, by decide,
    result_shape_is_structural optsAccum (initState optsAccum) preflightState
      (some 0) none (by decide) (by decide)⟩

/-- Claim C6 (confirmed): a close event observed while unsettled and
listening resolves exactly when the code is 0 and the signal absent, with
the structural result; any other pair rejects, the message naming the
signal when one is present and the nonzero (or null) code otherwise, the
cause carrying that code and signal pair. -/
theorem close_event_settlement_rule (opts : RunOptions) (s : ChildState)
    (code : Option Int) (sig : Option String)
    (hset : s.settled = none) (hcl : s.closeListener = true) :
    (code = some 0 ∧ sig = none →
      (stepEvent opts s (ChildEvent.closed code sig)).settled
        = some (Settlement.resolved
            { code := some 0
              signal := none
              stdout := if opts.onStdOut then none else some s.stdoutData
              stderr := if opts.onStdErr then none else some s.stderrData }))
    ∧ (∀ sg, sig = some sg →
      (stepEvent opts s (ChildEvent.closed code sig)).settled
        = some (Settlement.rejected (ErrValue.errorWithCause
            ("Process killed with signal: " ++ sg)
            { code := code, signal := sig, stdout := none, stderr := none })))
    ∧ (sig = none → code ≠ some 0 →
      (stepEvent opts s (ChildEvent.closed code sig)).settled
        = some (Settlement.rejected (ErrValue.errorWithCause
            ("Process exited with code: " ++ codeOptToString code)
            { code := code, signal := sig, stdout := none, stderr := none }))) := by
  refine ⟨?_, ?_, ?_⟩
  · rintro ⟨hc, hs⟩
    subst hc
    subst hs
    exact stepEvent_closed_success opts s hset hcl
  · intro sg hs
    subst hs
    have habn : ¬(code = some 0 ∧ (some sg : Option String) = none) := by
      rintro ⟨_, h⟩
      exact Option.noConfusion h
    simpa [closeMessage] using stepEvent_closed_failure opts s code (some sg) hset hcl habn
  · intro hs hc
    subst hs
    have habn : ¬(code = some 0 ∧ (none : Option String) = none) := by
      rintro ⟨h, _⟩
      exact hc h
    simpa [closeMessage] using stepEvent_closed_failure opts s code none hset hcl habn

/-- Witness: the close rule at the accumulating options, applied at the
success pair. -/
theorem close_event_settlement_rule_witness :
    (initState optsAccum).settled = none
    ∧ (initState optsAccum).closeListener = true
    ∧ ((some (0 : Int) = some 0 ∧ (none : Option String) = none →
        (stepEvent optsAccum (initState optsAccum)
            (ChildEvent.closed (some 0) none)).settled
          = some (Settlement.resolved
              { code := some 0
                signal := none
                stdout := if optsAccum.onStdOut then none
                  else some (initState optsAccum).stdoutData
                stderr := if optsAccum.onStdErr then none
                  else some (initState optsAccum).stderrData }))
      ∧ (∀ sg, (none : Option String) = some sg →
        (stepEvent optsAccum (initState optsAccum)
            (ChildEvent.closed (some 0) none)).settled
          = some (Settlement.rejected (ErrValue.errorWithCause
              ("Process killed with signal: " ++ sg)
              { code := some 0, signal := none, stdout := none, stderr := none })))
      ∧ ((none : Option String) = none → some (0 : Int) ≠ some 0 →
        (stepEvent optsAccum (initState optsAccum)
            (ChildEvent.closed (some 0) none)).settled
          = some (Settlement.rejected (ErrValue.errorWithCause
              ("Process exited with code: " ++ codeOptToString (some 0))
              { code := some 0, signal := none, stdout := none, stderr := none })))) :=
  ⟨by decide, by decide,
    close_event_settlement_rule optsAccum (initState optsAccum) (some 0) none
      (by decide) (by decide)⟩

/-- Claim C3 (confirmed): one settlement per invocation. Whenever the
invocation reaches a terminal condition (pre-flight abort, a synchronous
throw of the primitive, or a trace holding a close, error, or — with a
signal supplied — abort delivery), the returned promise is settled; and a
settlement, once made, is the settlement of every longer trace: later
resolve and reject calls never take effect. -/
theorem spawn_settles_exactly_once (opts : RunOptions) (beh : SpawnBehavior)
    (t₁ t₂ : List ChildEvent) (x : Settlement)
    (hterm : terminalReached opts beh = true)
    (hearly : (runEvents opts (initState opts) t₁).settled = some x) :
    (∃ st, spawn opts beh = SpawnReturn.returned st ∧ (st.settled).isSome = true)
    ∧ (runEvents opts (initState opts) (t₁ ++ t₂)).settled = some x := by
  constructor
  · by_cases hpre : (opts.signal && opts.signalAborted) = true
    · exact ⟨preflightState, by simp [spawn, hpre], by decide⟩
    · cases beh with
      | throws err =>
          refine ⟨thrownState err, ?_, rfl⟩
          simp [spawn, hpre]
      | child events =>
          refine ⟨runEvents opts (initState opts) events, ?_, ?_⟩
          · simp [spawn, hpre]
          · have hb : (opts.signal && opts.signalAborted) = false := by
              cases hbb : (opts.signal && opts.signalAborted)
              · rfl
              · exact absurd hbb hpre
            have hany : events.any (isTerminalEvent opts) = true := by
              simpa [terminalReached, hb] using hterm
            exact runEvents_terminal (initState_inv opts) hany
  · rw [runEvents_append]
    exact runEvents_settled_mono hearly t₂

/-- Witness: the single settlement at a trace that closes successfully
and then sees a second, ignored close event. -/
theorem spawn_settles_exactly_once_witness :
    terminalReached optsAccum
        (SpawnBehavior.child [ChildEvent.closed (some 0) none]) = true
    ∧ (runEvents optsAccum (initState optsAccum)
        [ChildEvent.closed (some 0) none]).settled
      = some (Settlement.resolved
          { code := some 0, signal := none, stdout := some "", stderr := some "" })
    ∧ ((∃ st, spawn optsAccum (SpawnBehavior.child [ChildEvent.closed (some 0) none])
          = SpawnReturn.returned st ∧ (st.settled).isSome = true)
      ∧ (runEvents optsAccum (initState optsAccum)
          ([ChildEvent.closed (some 0) none] ++ [ChildEvent.closed (some 1) none])).settled
        = some (Settlement.resolved
            { code := some 0, signal := none, stdout := some "", stderr := some "" })) :=
  ⟨by decide, by decide,
    spawn_settles_exactly_once optsAccum
      (SpawnBehavior.child [ChildEvent.closed (some 0) none])
      [ChildEvent.closed (some 0) none] [ChildEvent.closed (some 1) none]
      (Settlement.resolved
        { code := some 0, signal := none, stdout := some "", stderr := some "" })
      (by decide) (by decide)⟩

/-- In accumulating mode, a run of pure data deliveries appends exactly
the stream's chunks, in order, to the matching accumulator, and touches
neither the settlement nor the listeners. -/
theorem runEvents_data_fields (opts : RunOptions) (hOut : opts.onStdOut = false)
    (hErr : opts.onStdErr = false) :
    ∀ (ds : List ChildEvent), (∀ e ∈ ds, isDataEvent e = true) →
      ∀ (s : ChildState), s.stdoutListener = true → s.stderrListener = true →
        (runEvents opts s ds).stdoutData = s.stdoutData ++ stdoutOf ds
        ∧ (runEvents opts s ds).stderrData = s.stderrData ++ stderrOf ds
        ∧ (runEvents opts s ds).settled = s.settled
        ∧ (runEvents opts s ds).closeListener = s.closeListener
        ∧ (runEvents opts s ds).stdoutListener = true
        ∧ (runEvents opts s ds).stderrListener = true := by
  intro ds
  induction ds with
  | nil =>
      intro _ s h1 h2
      simp [runEvents, stdoutOf, stderrOf, h1, h2]
  | cons e es ih =>
      intro hd s h1 h2
      have hes : ∀ e ∈ es, isDataEvent e = true := fun e he =>
        hd e (List.mem_cons_of_mem _ he)
      cases e with
      | stdoutChunk c =>
          have hstep : stepEvent opts s (ChildEvent.stdoutChunk c)
              = { s with stdoutData := s.stdoutData ++ c } := by
            simp [stepEvent, h1, stdoutHandler, hOut]
          obtain ⟨a1, a2, a3, a4, a5, a6⟩ :=
            ih hes { s with stdoutData := s.stdoutData ++ c } h1 h2
          refine ⟨?_, ?_, ?_, ?_, ?_, ?_⟩ <;>
            simp only [runEvents, hstep] <;>
            simp [a1, a2, a3, a4, a5, a6, stdoutOf, stderrOf, String.append_assoc]
      | stderrChunk c =>
          have hstep : stepEvent opts s (ChildEvent.stderrChunk c)
              = { s with stderrData := s.stderrData ++ c } := by
            simp [stepEvent, h2, stderrHandler, hErr]
          obtain ⟨a1, a2, a3, a4, a5, a6⟩ :=
            ih hes { s with stderrData := s.stderrData ++ c } h1 h2
          refine ⟨?_, ?_, ?_, ?_, ?_, ?_⟩ <;>
            simp only [runEvents, hstep] <;>
            simp [a1, a2, a3, a4, a5, a6, stdoutOf, stderrOf, String.append_assoc]
      | abortFired =>
          have := hd ChildEvent.abortFired (List.mem_cons_self _ _)
          simp [isDataEvent] at this
      | closed code sig =>
          have := hd (ChildEvent.closed code sig) (List.mem_cons_self _ _)
          simp [isDataEvent] at this
      | errored err =>
          have := hd (ChildEvent.errored err) (List.mem_cons_self _ _)
          simp [isDataEvent] at this

/-- Claim C7 (confirmed): with no handlers supplied, a run of stream
deliveries followed by a clean exit (code 0, no signal) resolves with
accumulated stdout and stderr equal to the exact in-order concatenation
of the chunks delivered on each stream. -/
theorem accumulated_output_is_exact_concatenation (opts : RunOptions)
    (hOut : opts.onStdOut = false) (hErr : opts.onStdErr = false)
    (ds : List ChildEvent) (hd : ∀ e ∈ ds, isDataEvent e = true) :
    (runEvents opts (initState opts)
        (ds ++ [ChildEvent.closed (some 0) none])).settled
      = some (Settlement.resolved
          { code := some 0
            signal := none
            stdout := some (stdoutOf ds)
            stderr := some (stderrOf ds) }) := by
  obtain ⟨a1, a2, a3, a4, a5, a6⟩ :=
    runEvents_data_fields opts hOut hErr ds hd (initState opts) rfl rfl
  rw [runEvents_append]
  have hset : (runEvents opts (initState opts) ds).settled = none := by
    rw [a3]
    rfl
  have hcl : (runEvents opts (initState opts) ds).closeListener = true := by
    rw [a4]
    rfl
  have hstep : runEvents opts (runEvents opts (initState opts) ds)
        [ChildEvent.closed (some 0) none]
      = stepEvent opts (runEvents opts (initState opts) ds)
          (ChildEvent.closed (some 0) none) := rfl
  rw [hstep, stepEvent_closed_success opts _ hset hcl, hOut, hErr, a1, a2]
  simp [initState, String.empty_append]

/-- Witness: three chunks on the two streams, interleaved, then a clean
exit. -/
theorem accumulated_output_is_exact_concatenation_witness :
    optsAccum.onStdOut = false
    ∧ optsAccum.onStdErr = false
    ∧ (∀ e ∈ [ChildEvent.stdoutChunk "a", ChildEvent.stderrChunk "x",
          ChildEvent.stdoutChunk "b"], isDataEvent e = true)
    ∧ (runEvents optsAccum (initState optsAccum)
        ([ChildEvent.stdoutChunk "a", ChildEvent.stderrChunk "x",
          ChildEvent.stdoutChunk "b"] ++ [ChildEvent.closed (some 0) none])).settled
      = some (Settlement.resolved
          { code := some 0
            signal := none
            stdout := some (stdoutOf [ChildEvent.stdoutChunk "a",
              ChildEvent.stderrChunk "x", ChildEvent.stdoutChunk "b"])
            stderr := some (stderrOf [ChildEvent.stdoutChunk "a",
              ChildEvent.stderrChunk "x", ChildEvent.stdoutChunk "b"]) }) :=
  ⟨by decide, by decide, by decide,
    accumulated_output_is_exact_concatenation optsAccum (by decide) (by decide)
      [ChildEvent.stdoutChunk "a", ChildEvent.stderrChunk "x",
        ChildEvent.stdoutChunk "b"] (by decide)⟩

end NodeSpawn
